import Mathlib

/-!
Shallow embedding of `src/submission-system/src/main.rs` (icfp2020 submission
system): the submission handler, the result ledger, and the test pipeline.
Subprocess and filesystem effects are represented by an explicit environment
(`Env`) recording what each external step would return; raw subprocess output
is a byte list, decoded by a faithful UTF-8 validator mirroring
`String::from_utf8`.
-/

deriving instance DecidableEq for Except

namespace SubmissionSystem

/-- A byte is modelled as a `Nat` (meaningful values are < 256). -/
abbrev Byte := Nat

/-- UTF-8 continuation byte test: `0x80 ≤ b ≤ 0xBF`. -/
def contByte (b : Byte) : Bool := 0x80 ≤ b && b ≤ 0xBF

/-- Allowed first continuation byte after a 3-byte leader, excluding overlong
encodings (leader `0xE0`) and surrogates (leader `0xED`). -/
def firstCont3 (b c1 : Byte) : Bool :=
  if b == 0xE0 then 0xA0 ≤ c1 && c1 ≤ 0xBF
  else if b == 0xED then 0x80 ≤ c1 && c1 ≤ 0x9F
  else contByte c1

/-- Allowed first continuation byte after a 4-byte leader, excluding overlong
encodings (leader `0xF0`) and codepoints above `U+10FFFF` (leader `0xF4`). -/
def firstCont4 (b c1 : Byte) : Bool :=
  if b == 0xF0 then 0x90 ≤ c1 && c1 ≤ 0xBF
  else if b == 0xF4 then 0x80 ≤ c1 && c1 ≤ 0x8F
  else contByte c1

/-- Strict UTF-8 decoding of a byte list, mirroring Rust's
`String::from_utf8`: `none` exactly when the bytes are not valid UTF-8. -/
def utf8Chars : List Byte → Option (List Char)
  | [] => some []
  | b :: rest =>
    if b < 0x80 then
      (utf8Chars rest).map (fun cs => Char.ofNat b :: cs)
    else if 0xC2 ≤ b && b ≤ 0xDF then
      match rest with
      | c1 :: r =>
        if contByte c1 then
          (utf8Chars r).map (fun cs => Char.ofNat ((b - 0xC0) * 0x40 + (c1 - 0x80)) :: cs)
        else none
      | _ => none
    else if 0xE0 ≤ b && b ≤ 0xEF then
      match rest with
      | c1 :: c2 :: r =>
        if firstCont3 b c1 && contByte c2 then
          (utf8Chars r).map
            (fun cs => Char.ofNat ((b - 0xE0) * 0x1000 + (c1 - 0x80) * 0x40 + (c2 - 0x80)) :: cs)
        else none
      | _ => none
    else if 0xF0 ≤ b && b ≤ 0xF4 then
      match rest with
      | c1 :: c2 :: c3 :: r =>
        if firstCont4 b c1 && contByte c2 && contByte c3 then
          (utf8Chars r).map
            (fun cs =>
              Char.ofNat
                ((b - 0xF0) * 0x40000 + (c1 - 0x80) * 0x1000 + (c2 - 0x80) * 0x40 + (c3 - 0x80))
                :: cs)
        else none
      | _ => none
    else none

/-- `String::from_utf8`: decode a byte list to a string or fail. -/
def decodeUtf8 (l : List Byte) : Option String := (utf8Chars l).map String.mk

/-- Does the character list `l` begin with `pat`? -/
def startsWithSeq (pat l : List Char) : Bool := l.take pat.length == pat

/-- Scanner for Rust's `str::replace`: replaces non-overlapping occurrences of
`pat` left to right.  `skip` counts pattern characters still to be consumed
after a match (so matched text is not rescanned), keeping the recursion
structural on the scanned list. -/
def replaceGo (pat rep : List Char) : List Char → Nat → List Char
  | [], _ => []
  | _ :: rest, skip + 1 => replaceGo pat rep rest skip
  | c :: rest, 0 =>
    if startsWithSeq pat (c :: rest) then
      rep ++ replaceGo pat rep rest (pat.length - 1)
    else
      c :: replaceGo pat rep rest 0

/-- Rust's `str::replace` on character lists, for a non-empty pattern (the
source only ever calls it with non-empty literal patterns; Rust's empty-pattern
behavior is not modelled). -/
def replaceSeq (pat rep l : List Char) : List Char :=
  if pat.isEmpty then l else replaceGo pat rep l 0

/-- Rust's `str::replace` on strings: replace every non-overlapping occurrence
of `pat` in `s` by `rep`, scanning left to right. -/
def rustReplace (s pat rep : String) : String :=
  ⟨replaceSeq pat.toList rep.toList s.toList⟩

/-- Rust's `str::starts_with` on strings. -/
def strStarts (s pre : String) : Bool := startsWithSeq pre.toList s.toList

/-- `struct Output { stdout: String, stderr: String }` (main.rs:38-42):
decoded text captured from one subprocess invocation. -/
structure Output where
  stdout : String
  stderr : String
deriving DecidableEq, Repr

/-- `enum TestResult` (main.rs:30-36): the business-level outcome of the
run/test phases. -/
inductive TestResult where
  | Success (test : Output)
  | RunError (run : Output)
  | TestError (test : Output)
  | RunTestError (run : Output) (test : Output)
deriving DecidableEq, Repr

/-- `enum SetupError` (main.rs:273-280).  Error payloads of the external
libraries (`git2::Error`, `std::io::Error`, `ron::Error`) are modelled as
message strings; `FromUtf8Error` keeps the offending bytes, as Rust's does. -/
inductive SetupError where
  | GitError (msg : String)
  | IOError (msg : String)
  | RonError (msg : String)
  | Utf8Error (bytes : List Byte)
  | ContainerBuildFailed (out : Output)
deriving DecidableEq, Repr

/-- `enum TestLogResult` (main.rs:67-77). -/
inductive TestLogResult where
  | Success (o : Output)
  | SetupError (e : SetupError)
  | TestError (run_error_log : Option Output) (test_error_log : Option Output)
  | InProgress
deriving DecidableEq, Repr

/-- `struct TestLogEntry` (main.rs:60-65). -/
structure TestLogEntry where
  repository : String
  branch : String
  result : TestLogResult
deriving DecidableEq, Repr

/-- Exit status plus raw (undecoded) captured streams of one subprocess, i.e.
Rust's `std::process::Output`. -/
structure CmdResult where
  success : Bool
  stdout : List Byte
  stderr : List Byte
deriving DecidableEq, Repr

/-- The external world as observed by one `test` run: the value each fallible
external step would produce, in the order the source performs them.  Command
identity (image id, clone URL, branch) is threaded through the environment
implicitly; a `.error` means the corresponding Rust call returned `Err`
(for commands: `Command::output()` itself failed). -/
structure Env where
  tempdir : Except String Unit
  clone : Except String Unit
  readPlatform : Except String String
  copyDockerfile : Except String Unit
  buildCmd : Except String CmdResult
  closeTmp : Except String Unit
  runCmd : Except String CmdResult
  testCmd : Except String CmdResult
  rmiCmd : Except String CmdResult

/-- Which external commands a `test` run reached, and whether workspace
removal was attempted (`tempfile` removes the directory on drop on every exit
path after successful creation, and `close()` removes it explicitly). -/
structure Trace where
  ranRun : Bool
  ranTest : Bool
  ranRmi : Bool
  tmpRemoved : Bool
deriving DecidableEq, Repr

/-- `Output { stdout: String::from_utf8(..)?, stderr: String::from_utf8(..)? }`:
decode both streams, stdout first, failing with `Utf8Error` as `?` does. -/
def mkOutput (outB errB : List Byte) : Except SetupError Output :=
  match decodeUtf8 outB with
  | none => .error (.Utf8Error outB)
  | some o =>
    match decodeUtf8 errB with
    | none => .error (.Utf8Error errB)
    | some e => .ok ⟨o, e⟩

/-- The final classification match of `test` (main.rs:436-477), over the
run-phase and test-phase results, including the per-arm stream decoding the
source performs there. -/
def classifyStep (result test_result : CmdResult) (tr : Trace) :
    Except SetupError TestResult × Trace :=
  match result.success, test_result.success with
  | true, true =>
    (match mkOutput test_result.stdout test_result.stderr with
     | .error e => (.error e, tr)
     | .ok t => (.ok (.Success t), tr))
  | false, false =>
    (match mkOutput result.stdout result.stderr with
     | .error e => (.error e, tr)
     | .ok r =>
       match mkOutput test_result.stdout test_result.stderr with
       | .error e => (.error e, tr)
       | .ok t => (.ok (.RunTestError r t), tr))
  | false, _ =>
    (match mkOutput result.stdout result.stderr with
     | .error e => (.error e, tr)
     | .ok r => (.ok (.RunError r), tr))
  | _, false =>
    (match mkOutput test_result.stdout test_result.stderr with
     | .error e => (.error e, tr)
     | .ok t => (.ok (.TestError t), tr))

/-- `fn test(clone_url, branch) -> Result<TestResult, SetupError>`
(main.rs:349-478), with the environment supplying each external step's
result and a `Trace` recording which stages were reached. -/
def testFn (env : Env) : Except SetupError TestResult × Trace :=
  match env.tempdir with
  | .error e => (.error (.IOError e), ⟨false, false, false, false⟩)
  | .ok _ =>
  match env.clone with
  | .error e => (.error (.GitError e), ⟨false, false, false, true⟩)
  | .ok _ =>
  match env.readPlatform with
  | .error e => (.error (.IOError e), ⟨false, false, false, true⟩)
  | .ok _platform =>
  match env.copyDockerfile with
  | .error e => (.error (.IOError e), ⟨false, false, false, true⟩)
  | .ok _ =>
  match env.buildCmd with
  | .error e => (.error (.IOError e), ⟨false, false, false, true⟩)
  | .ok out =>
  if !out.success then
    -- main.rs:389-394
    match mkOutput out.stdout out.stderr with
    | .error e => (.error e, ⟨false, false, false, true⟩)
    | .ok o => (.error (.ContainerBuildFailed o), ⟨false, false, false, true⟩)
  else
  match env.closeTmp with
  | .error e => (.error (.IOError e), ⟨false, false, false, true⟩)
  | .ok _ =>
  -- main.rs:398: `String::from_utf8(out.stdout)?` (the image id)
  match decodeUtf8 out.stdout with
  | none => (.error (.Utf8Error out.stdout), ⟨false, false, false, true⟩)
  | some _id =>
  match env.runCmd with
  | .error e => (.error (.IOError e), ⟨true, false, false, true⟩)
  | .ok result =>
  match env.testCmd with
  | .error e => (.error (.IOError e), ⟨true, true, false, true⟩)
  | .ok test_result =>
  match env.rmiCmd with
  | .error e => (.error (.IOError e), ⟨true, true, true, true⟩)
  | .ok del_res =>
  if del_res.success then
    classifyStep result test_result ⟨true, true, true, true⟩
  else
    -- main.rs:431-433: the failure-logging path decodes both streams with `?`
    match mkOutput del_res.stdout del_res.stderr with
    | .error e => (.error e, ⟨true, true, true, true⟩)
    | .ok _ => classifyStep result test_result ⟨true, true, true, true⟩

/-- The match in `test_wrapper` converting an `Ok` `TestResult` into the
ledger's `TestLogResult` (main.rs:321-336). -/
def recordOutcome : TestResult → TestLogResult
  | .Success test => .Success test
  | .TestError test => .TestError none (some test)
  | .RunError run => .TestError (some run) none
  | .RunTestError run test => .TestError (some run) (some test)

/-- `results.write().unwrap().get_mut(index).map(|e| e.result = r)`: set the
`result` field of the entry at `index` if it exists, otherwise do nothing. -/
def setResultAt (l : List TestLogEntry) (i : Nat) (r : TestLogResult) :
    List TestLogEntry :=
  match l.get? i with
  | some e => l.set i { e with result := r }
  | none => l

/-- `fn test_wrapper` (main.rs:301-347): append an `InProgress` entry at index
`results.length`, run the pipeline, then record its outcome at that index.
`clone_url` and `branch` reach the pipeline through `env`. -/
def testWrapper (match_url clone_url branch : String) (env : Env)
    (results : List TestLogEntry) : List TestLogEntry :=
  let _ := clone_url
  let index := results.length
  let results1 := results ++ [⟨match_url, branch, .InProgress⟩]
  match (testFn env).1 with
  | .ok r => setResultAt results1 index (recordOutcome r)
  | .error e => setResultAt results1 index (.SetupError e)

/-- `struct RepoSettings` (main.rs:22-28). -/
structure RepoSettings where
  match_url : String
  clone_url : String
  deploy_token : String
  deploy_user : String
deriving DecidableEq, Repr

/-- `struct Repo` (main.rs:163-167). -/
structure Repo where
  git_ssh_url : String
  git_http_url : String
deriving DecidableEq, Repr

/-- `struct RequestData` (main.rs:155-161); `reference` is the payload's
`ref` field. -/
structure RequestData where
  object_kind : String
  reference : String
  repository : Repo
deriving DecidableEq, Repr

/-- `form.reference.replace("refs/heads/", "")` (main.rs:236). -/
def deriveBranch (reference : String) : String :=
  rustReplace reference "refs/heads/" ""

/-- The branch gate condition of main.rs:238 (true means the request is
skipped). -/
def branchRejected (branch : String) : Bool :=
  branch != "submission" && branch != "master" && !strStarts branch "submissions/"

/-- What an accepted submission dispatches: the spawned
`test_wrapper(match_url, clone_url, branch, ..)` arguments. -/
structure Dispatch where
  match_url : String
  clone_url : String
  branch : String
deriving DecidableEq, Repr

/-- The `for rep in conf.repos.iter()` loop of `submission_handler`
(main.rs:235-260): returns the synchronous response body and the dispatch, if
any. -/
def submissionLoop (form : RequestData) : List RepoSettings → String × Option Dispatch
  | [] => ("Unknown Repository " ++ form.repository.git_http_url, none)
  | rep :: rest =>
    let branch := deriveBranch form.reference
    if branchRejected branch then
      ("Skipping none master|submission branch", none)
    else if form.repository.git_http_url == rep.match_url then
      ("Running Test!",
        some ⟨rep.match_url,
          rustReplace (rustReplace rep.clone_url "{username}" rep.deploy_user)
            "{password}" rep.deploy_token,
          branch⟩)
    else
      submissionLoop form rest

/-- `submission_handler` (main.rs:228-261) together with the eventual ledger
effect of the task it spawns: the response body, and the ledger after the
dispatched `test_wrapper` (if any) has completed. -/
def submissionHandler (conf : List RepoSettings) (form : RequestData) (env : Env)
    (ledger : List TestLogEntry) : String × List TestLogEntry :=
  match submissionLoop form conf with
  | (body, some d) => (body, testWrapper d.match_url d.clone_url d.branch env ledger)
  | (body, none) => (body, ledger)

/-- Every `TestLogResult` other than `InProgress` is terminal. -/
def isTerminal : TestLogResult → Bool
  | .InProgress => false
  | _ => true

/-- The two ledger mutations the program ever performs (main.rs:307-316 and
320-345): appending a fresh `InProgress` entry, and completing one index. -/
inductive LedgerOp where
  | append (repository branch : String)
  | complete (i : Nat) (r : TestLogResult)
deriving DecidableEq, Repr

/-- Apply one ledger operation. -/
def applyOp (l : List TestLogEntry) : LedgerOp → List TestLogEntry
  | .append repository branch => l ++ [⟨repository, branch, .InProgress⟩]
  | .complete i r => setResultAt l i r

/-- Apply a sequence of ledger operations. -/
def applyOps (l : List TestLogEntry) (ops : List LedgerOp) : List TestLogEntry :=
  ops.foldl applyOp l

/-- The entry at index `i` exists and currently has result `r`. -/
def resultIs (l : List TestLogEntry) (i : Nat) (r : TestLogResult) : Bool :=
  match l.get? i with
  | some e => e.result == r
  | none => false

/-- The mutation discipline the program's tasks obey, starting from ledger
`l`: a completion always writes a terminal result over an entry that is still
`InProgress` (each `test_wrapper` completes only the index it appended, and
does so once). -/
def validFrom (l : List TestLogEntry) : List LedgerOp → Bool
  | [] => true
  | op :: ops =>
    (match op with
     | .append _ _ => true
     | .complete i r => isTerminal r && resultIs l i .InProgress)
    && validFrom (applyOp l op) ops

/-- The freshly appended ledger entry for an accepted submission
(main.rs:310-314). -/
def pendingEntry (match_url branch : String) : TestLogEntry :=
  ⟨match_url, branch, .InProgress⟩

/-- The classification table in the spec's words (§4.2 step 9), under the
source's variant names: the spec's `RunFailure` is the source's `RunError`,
`TestFailure` is `TestError`, `RunAndTestFailure` is `RunTestError`. -/
def classifySpec (runOk testOk : Bool) (run test : Output) : TestResult :=
  match runOk, testOk with
  | true, true => .Success test
  | false, false => .RunTestError run test
  | false, true => .RunError run
  | true, false => .TestError test

/-- The recording table in the spec's words (§3 LogResult and claim C7): how a
finished pipeline result must appear in the ledger entry. -/
def recordSpec : Except SetupError TestResult → TestLogResult
  | .ok (.Success t) => .Success t
  | .ok (.RunError r) => .TestError (some r) none
  | .ok (.TestError t) => .TestError none (some t)
  | .ok (.RunTestError r t) => .TestError (some r) (some t)
  | .error e => .SetupError e

/-- Branch derivation in claim C9's words: remove only a leading occurrence of
`"refs/heads/"`, leaving the remainder unchanged. -/
def stripLeadingOnly (reference : String) : String :=
  if strStarts reference "refs/heads/" then
    ⟨reference.toList.drop "refs/heads/".toList.length⟩
  else reference

/-- Does `pat` occur (as a contiguous sub-sequence) anywhere in the list? -/
def listHasOcc (pat : List Char) : List Char → Bool
  | [] => pat.isEmpty
  | c :: rest => startsWithSeq pat (c :: rest) || listHasOcc pat rest

/-- A concrete environment in which every external step succeeds: the build
prints image id `"id"`, the run prints `"r"`, the test prints `"t"`/`"e"`,
image removal succeeds. -/
def envAllOk : Env :=
  ⟨.ok (), .ok (), .ok "rust", .ok (), .ok ⟨true, [105, 100], []⟩, .ok (),
   .ok ⟨true, [114], []⟩, .ok ⟨true, [116], [101]⟩, .ok ⟨true, [], []⟩⟩

/-- Like `envAllOk`, but image removal fails with decodable output. -/
def envRmiFailTxt : Env :=
  ⟨.ok (), .ok (), .ok "rust", .ok (), .ok ⟨true, [105, 100], []⟩, .ok (),
   .ok ⟨true, [114], []⟩, .ok ⟨true, [116], [101]⟩, .ok ⟨false, [120], [121]⟩⟩

/-- Like `envAllOk`, but image removal fails and its stdout is the single
byte `0xFF`, which is not valid UTF-8. -/
def envRmiFailBin : Env :=
  ⟨.ok (), .ok (), .ok "rust", .ok (), .ok ⟨true, [105, 100], []⟩, .ok (),
   .ok ⟨true, [114], []⟩, .ok ⟨true, [116], [101]⟩, .ok ⟨false, [255], []⟩⟩

/-- The container build fails with decodable output `"n"`/`"o"`. -/
def envBuildFailTxt : Env :=
  ⟨.ok (), .ok (), .ok "rust", .ok (), .ok ⟨false, [110], [111]⟩, .ok (),
   .ok ⟨true, [114], []⟩, .ok ⟨true, [116], [101]⟩, .ok ⟨true, [], []⟩⟩

/-- The container build fails and its stdout is the invalid byte `0xFF`. -/
def envBuildFailBin : Env :=
  ⟨.ok (), .ok (), .ok "rust", .ok (), .ok ⟨false, [255], []⟩, .ok (),
   .ok ⟨true, [114], []⟩, .ok ⟨true, [116], [101]⟩, .ok ⟨true, [], []⟩⟩

/-- The container build succeeds printing id `"id"`, but its captured stderr
is the invalid byte `0xFF`. -/
def envBuildNoise : Env :=
  ⟨.ok (), .ok (), .ok "rust", .ok (), .ok ⟨true, [105, 100], [255]⟩, .ok (),
   .ok ⟨true, [114], []⟩, .ok ⟨true, [116], [101]⟩, .ok ⟨true, [], []⟩⟩

/-- The container build succeeds but its stdout (the image id) is the invalid
byte `0xFF`. -/
def envBuildIdBin : Env :=
  ⟨.ok (), .ok (), .ok "rust", .ok (), .ok ⟨true, [255], []⟩, .ok (),
   .ok ⟨true, [114], []⟩, .ok ⟨true, [116], [101]⟩, .ok ⟨true, [], []⟩⟩

/-- The environment of a pipeline run whose pre-build stages (workspace,
clone, platform file, Dockerfile copy, `close()`) all succeed, with the given
build/run/test/removal subprocess results. -/
def mkEnv (p : String) (bout runR testR rmiR : CmdResult) : Env :=
  ⟨.ok (), .ok (), .ok p, .ok (), .ok bout, .ok (), .ok runR, .ok testR, .ok rmiR⟩

/-- A configured repository that matches `http://h/r.git`. -/
def repoA : RepoSettings :=
  ⟨"http://h/r.git", "https://{username}:{password}@h/r.git", "t0k3n", "bot"⟩

/-- A configured repository that matches a different URL. -/
def repoB : RepoSettings :=
  ⟨"http://h/other.git", "https://{username}:{password}@h/other.git", "tB", "uB"⟩

/-- A push of branch `master` of `http://h/r.git`. -/
def formMaster : RequestData :=
  ⟨"push", "refs/heads/master", ⟨"git@h:r.git", "http://h/r.git"⟩⟩

/-- A push of branch `feature-x` (rejected by the gate) of `http://h/r.git`. -/
def formFeature : RequestData :=
  ⟨"push", "refs/heads/feature-x", ⟨"git@h:r.git", "http://h/r.git"⟩⟩

/-! ## Helper lemmas -/

/-- Setting the result at index `i` rewrites exactly that entry's `result`. -/
theorem setResultAt_get_self (l : List TestLogEntry) (i : Nat) (e : TestLogEntry)
    (r : TestLogResult) (h : l.get? i = some e) :
    (setResultAt l i r).get? i = some { e with result := r } := by
  have hlt : i < l.length := by
    by_contra hge
    rw [List.get?_eq_none.mpr (Nat.le_of_not_lt hge)] at h
    cases h
  unfold setResultAt
  rw [h]
  exact List.get?_set_eq_of_lt _ hlt

/-- Setting the result at index `i` leaves every other index unchanged. -/
theorem setResultAt_get_ne (l : List TestLogEntry) (i j : Nat) (r : TestLogResult)
    (h : i ≠ j) : (setResultAt l i r).get? j = l.get? j := by
  unfold setResultAt
  cases hg : l.get? i with
  | none => rfl
  | some e => exact List.get?_set_ne _ _ h

/-- The entry appended at the old length is readable there. -/
theorem get_concat (l : List TestLogEntry) (e : TestLogEntry) :
    (l ++ [e]).get? l.length = some e := List.get?_concat_length l e

/-- `test_wrapper` converts every `Ok` pipeline result to a terminal
(non-`InProgress`) ledger result. -/
theorem isTerminal_recordOutcome (r : TestResult) : isTerminal (recordOutcome r) = true := by
  cases r <;> rfl

/-- Under the program's mutation discipline, an entry that is already terminal
is never modified by any later ledger operation. -/
theorem terminal_stable (ops : List LedgerOp) :
    ∀ (l : List TestLogEntry) (j : Nat) (e : TestLogEntry),
      validFrom l ops = true → l.get? j = some e → isTerminal e.result = true →
      (applyOps l ops).get? j = some e := by
  induction ops with
  | nil => intro l j e _ hj _; exact hj
  | cons op ops ih =>
    intro l j e hv hj ht
    have hv2 : validFrom (applyOp l op) ops = true := by
      simp only [validFrom, Bool.and_eq_true] at hv
      exact hv.2
    have hstep : (applyOp l op).get? j = some e := by
      cases op with
      | append mm bb =>
        have hlt : j < l.length := by
          by_contra hge
          rw [List.get?_eq_none.mpr (Nat.le_of_not_lt hge)] at hj; cases hj
        simpa [applyOp] using (List.get?_append hlt).trans hj
      | complete i r =>
        rcases eq_or_ne i j with hij | hij
        · subst hij
          simp only [validFrom, Bool.and_eq_true] at hv
          have hres : resultIs l i .InProgress = true := hv.1.2
          rw [resultIs, hj] at hres
          have he : e.result = .InProgress := by
            simpa [beq_iff_eq] using hres
          rw [he] at ht; cases ht
        · show (setResultAt l i r).get? j = some e
          rw [setResultAt_get_ne l i j r hij]
          exact hj
    have happ : applyOps l (op :: ops) = applyOps (applyOp l op) ops := rfl
    rw [happ]
    exact ih (applyOp l op) j e hv2 hstep ht

/-- Strings append by appending their character lists. -/
theorem toList_append (a b : String) : (a ++ b).toList = a.toList ++ b.toList := by
  cases a; cases b; rfl

/-- The replace scanner skips exactly `xs.length` characters when told to. -/
theorem replaceGo_skip (pat rep xs l : List Char) :
    replaceGo pat rep (xs ++ l) xs.length = replaceGo pat rep l 0 := by
  induction xs with
  | nil => rfl
  | cons c xs ih => simpa [replaceGo] using ih

/-- At a match of the pattern, the scanner emits the replacement and resumes
after the matched text (non-overlapping semantics). -/
theorem replaceGo_headmatch (p : Char) (ps rep l : List Char) :
    replaceGo (p :: ps) rep ((p :: ps) ++ l) 0 = rep ++ replaceGo (p :: ps) rep l 0 := by
  have hsw : startsWithSeq (p :: ps) (p :: (ps ++ l)) = true := by
    simp [startsWithSeq, List.take_left]
  show (if startsWithSeq (p :: ps) (p :: (ps ++ l)) then
          rep ++ replaceGo (p :: ps) rep (ps ++ l) ((p :: ps).length - 1)
        else p :: replaceGo (p :: ps) rep (ps ++ l) 0)
      = rep ++ replaceGo (p :: ps) rep l 0
  rw [if_pos hsw]
  congr 1
  calc replaceGo (p :: ps) rep (ps ++ l) ((p :: ps).length - 1)
      = replaceGo (p :: ps) rep (ps ++ l) ps.length := rfl
    _ = replaceGo (p :: ps) rep l 0 := replaceGo_skip _ _ _ _

/-- A list without any occurrence of the pattern is left unchanged. -/
theorem replaceGo_no_occ (pat rep l : List Char)
    (h : listHasOcc pat l = false) : replaceGo pat rep l 0 = l := by
  induction l with
  | nil => rfl
  | cons c rest ih =>
    simp only [listHasOcc, Bool.or_eq_false_iff] at h
    rw [replaceGo, if_neg (by rw [h.1]; exact Bool.false_ne_true)]
    rw [ih h.2]

/-- `str::replace` removes a leading occurrence of the (non-empty) pattern and
continues on the remainder. -/
theorem replaceSeq_append_pat (p : Char) (ps rep l : List Char) :
    replaceSeq (p :: ps) rep ((p :: ps) ++ l) = rep ++ replaceSeq (p :: ps) rep l := by
  unfold replaceSeq
  simp only [List.isEmpty_cons, if_false, Bool.false_eq_true]
  exact replaceGo_headmatch p ps rep l

/-- `str::replace` is the identity on inputs without any pattern occurrence. -/
theorem replaceSeq_no_occ (pat rep l : List Char) (h : listHasOcc pat l = false) :
    replaceSeq pat rep l = l := by
  unfold replaceSeq
  by_cases hp : pat.isEmpty = true
  · exfalso
    cases l with
    | nil => rw [listHasOcc, hp] at h; cases h
    | cons c rest =>
      have hsw : startsWithSeq pat (c :: rest) = true := by
        have hnil : pat = [] := by cases pat with | nil => rfl | cons a as => cases hp
        rw [hnil]; rfl
      rw [listHasOcc, hsw] at h
      cases h
  · rw [if_neg hp]
    exact replaceGo_no_occ pat rep l h

/-- If the build succeeded with a decodable image id and the removal stage
does not escalate (removal succeeded, or failed with decodable streams), the
pipeline reaches the final classification. -/
theorem testFn_reaches_classify (p : String) (bout runR testR rmiR : CmdResult)
    (hb : bout.success = true) (hbd : (decodeUtf8 bout.stdout).isSome = true)
    (hrmi : rmiR.success = true
      ∨ ((decodeUtf8 rmiR.stdout).isSome = true ∧ (decodeUtf8 rmiR.stderr).isSome = true)) :
    (testFn (mkEnv p bout runR testR rmiR)).1
      = (classifyStep runR testR ⟨true, true, true, true⟩).1 := by
  obtain ⟨bid, hbid⟩ := Option.isSome_iff_exists.mp hbd
  cases hd : rmiR.success with
  | true => simp [mkEnv, testFn, hb, hbid, hd]
  | false =>
    rcases hrmi with h | ⟨h1, h2⟩
    · rw [hd] at h; cases h
    · obtain ⟨ds, hds⟩ := Option.isSome_iff_exists.mp h1
      obtain ⟨de, hde⟩ := Option.isSome_iff_exists.mp h2
      simp [mkEnv, testFn, mkOutput, hb, hbid, hd, hds, hde]

/-- When the run succeeded, both classification arms decode the test-phase
streams: an invalid test stdout escalates. -/
theorem classifyStep_test_stdout (runR testR : CmdResult) (tr : Trace)
    (hr : runR.success = true) (hnd : decodeUtf8 testR.stdout = none) :
    (classifyStep runR testR tr).1 = .error (.Utf8Error testR.stdout) := by
  cases ht : testR.success <;> simp [classifyStep, mkOutput, hr, ht, hnd]

/-- When the run succeeded and the test stdout decodes, an invalid test
stderr escalates. -/
theorem classifyStep_test_stderr (runR testR : CmdResult) (tr : Trace)
    (hr : runR.success = true) (hs : (decodeUtf8 testR.stdout).isSome = true)
    (hnd : decodeUtf8 testR.stderr = none) :
    (classifyStep runR testR tr).1 = .error (.Utf8Error testR.stderr) := by
  obtain ⟨ts, hts⟩ := Option.isSome_iff_exists.mp hs
  cases ht : testR.success <;> simp [classifyStep, mkOutput, hr, ht, hts, hnd]

/-- When the run failed, both classification arms decode the run-phase
streams first: an invalid run stdout escalates. -/
theorem classifyStep_run_stdout (runR testR : CmdResult) (tr : Trace)
    (hr : runR.success = false) (hnd : decodeUtf8 runR.stdout = none) :
    (classifyStep runR testR tr).1 = .error (.Utf8Error runR.stdout) := by
  cases ht : testR.success <;> simp [classifyStep, mkOutput, hr, ht, hnd]

/-- When the run failed and its stdout decodes, an invalid run stderr
escalates. -/
theorem classifyStep_run_stderr (runR testR : CmdResult) (tr : Trace)
    (hr : runR.success = false) (hs : (decodeUtf8 runR.stdout).isSome = true)
    (hnd : decodeUtf8 runR.stderr = none) :
    (classifyStep runR testR tr).1 = .error (.Utf8Error runR.stderr) := by
  obtain ⟨rs, hrs⟩ := Option.isSome_iff_exists.mp hs
  cases ht : testR.success <;> simp [classifyStep, mkOutput, hr, ht, hrs, hnd]

/-- When both phases failed and the run streams decode, an invalid test
stdout escalates. -/
theorem classifyStep_ff_test_stdout (runR testR : CmdResult) (tr : Trace)
    (hr : runR.success = false) (ht : testR.success = false)
    (h1 : (decodeUtf8 runR.stdout).isSome = true) (h2 : (decodeUtf8 runR.stderr).isSome = true)
    (hnd : decodeUtf8 testR.stdout = none) :
    (classifyStep runR testR tr).1 = .error (.Utf8Error testR.stdout) := by
  obtain ⟨rs, hrs⟩ := Option.isSome_iff_exists.mp h1
  obtain ⟨re, hre⟩ := Option.isSome_iff_exists.mp h2
  simp [classifyStep, mkOutput, hr, ht, hrs, hre, hnd]

/-- When both phases failed and run streams plus test stdout decode, an
invalid test stderr escalates. -/
theorem classifyStep_ff_test_stderr (runR testR : CmdResult) (tr : Trace)
    (hr : runR.success = false) (ht : testR.success = false)
    (h1 : (decodeUtf8 runR.stdout).isSome = true) (h2 : (decodeUtf8 runR.stderr).isSome = true)
    (h3 : (decodeUtf8 testR.stdout).isSome = true)
    (hnd : decodeUtf8 testR.stderr = none) :
    (classifyStep runR testR tr).1 = .error (.Utf8Error testR.stderr) := by
  obtain ⟨rs, hrs⟩ := Option.isSome_iff_exists.mp h1
  obtain ⟨re, hre⟩ := Option.isSome_iff_exists.mp h2
  obtain ⟨ts, hts⟩ := Option.isSome_iff_exists.mp h3
  simp [classifyStep, mkOutput, hr, ht, hrs, hre, hts, hnd]

/-! ## Claims -/

/-- C1 (confirmed): once the pipeline reaches the final classification (build
succeeded with decodable image id, run/test/removal commands all returned and
removal succeeded) and the run-phase and test-phase streams decode, `test`
classifies the pair of exit-success flags totally and deterministically:
(true,true) to Success with exactly the test-phase Output, (false,false) to
RunTestError with both Outputs, (false,true) to RunError with only the
run-phase Output, (true,false) to TestError with only the test-phase
Output. -/
theorem c1_classification (p bid rs re ts te : String) (bout runR testR rmiR : CmdResult)
    (hb : bout.success = true) (hbd : decodeUtf8 bout.stdout = some bid)
    (hrmi : rmiR.success = true)
    (hrs : decodeUtf8 runR.stdout = some rs) (hre : decodeUtf8 runR.stderr = some re)
    (hts : decodeUtf8 testR.stdout = some ts) (hte : decodeUtf8 testR.stderr = some te) :
    (testFn ⟨.ok (), .ok (), .ok p, .ok (), .ok bout, .ok (), .ok runR, .ok testR, .ok rmiR⟩).1
      = .ok (classifySpec runR.success testR.success ⟨rs, re⟩ ⟨ts, te⟩) := by
  cases hr : runR.success <;> cases ht : testR.success <;>
    simp [testFn, classifyStep, classifySpec, mkOutput, hb, hbd, hrmi, hrs, hre, hts, hte, hr, ht]

/-- Witness for C1 at a concrete fully successful environment. -/
theorem c1_classification_witness :
    (testFn envAllOk).1 = .ok (classifySpec true true ⟨"r", ""⟩ ⟨"t", "e"⟩) :=
  c1_classification "rust" "id" "r" "" "t" "e"
    ⟨true, [105, 100], []⟩ ⟨true, [114], []⟩ ⟨true, [116], [101]⟩ ⟨true, [], []⟩
    rfl (by decide) rfl (by decide) (by decide) (by decide) (by decide)

/-- C2 (confirmed): `test_wrapper` appends exactly one entry, initially
`InProgress`, at index = ledger length before the append; the rest of
`test_wrapper` is exactly one assignment of a terminal result to that index;
and under the program's mutation discipline (`validFrom`) the entry, once
terminal, is never modified or removed, so its index is permanent. -/
theorem c2_ledger_lifecycle (m c b : String) (env : Env) (ledger : List TestLogEntry) :
    ((ledger ++ [pendingEntry m b]).length = ledger.length + 1
      ∧ (ledger ++ [pendingEntry m b]).get? ledger.length = some (pendingEntry m b))
    ∧ (∃ r, isTerminal r = true
        ∧ testWrapper m c b env ledger
            = setResultAt (ledger ++ [pendingEntry m b]) ledger.length r
        ∧ (testWrapper m c b env ledger).get? ledger.length = some ⟨m, b, r⟩)
    ∧ ∀ ops, validFrom (testWrapper m c b env ledger) ops = true →
        (applyOps (testWrapper m c b env ledger) ops).get? ledger.length
          = (testWrapper m c b env ledger).get? ledger.length := by
  have hex : ∃ r, isTerminal r = true
      ∧ testWrapper m c b env ledger
          = setResultAt (ledger ++ [pendingEntry m b]) ledger.length r
      ∧ (testWrapper m c b env ledger).get? ledger.length = some ⟨m, b, r⟩ := by
    cases h : (testFn env).1 with
    | ok r =>
      refine ⟨recordOutcome r, isTerminal_recordOutcome r, ?_, ?_⟩
      · unfold testWrapper; rw [h]; rfl
      · unfold testWrapper; rw [h]
        exact setResultAt_get_self _ _ _ _ (get_concat ledger _)
    | error e =>
      refine ⟨TestLogResult.SetupError e, rfl, ?_, ?_⟩
      · unfold testWrapper; rw [h]; rfl
      · unfold testWrapper; rw [h]
        exact setResultAt_get_self _ _ _ _ (get_concat ledger _)
  refine ⟨⟨by simp, get_concat ledger _⟩, hex, ?_⟩
  intro ops hv
  obtain ⟨r, hterm, -, hget⟩ := hex
  rw [hget]
  exact terminal_stable ops _ _ _ hv hget hterm

/-- Witness for C2: a concrete later append leaves the completed entry at
index 0 unchanged. -/
theorem c2_ledger_lifecycle_witness :
    (applyOps (testWrapper "m" "c" "master" envAllOk []) [.append "x" "y"]).get? 0
      = (testWrapper "m" "c" "master" envAllOk []).get? 0 :=
  (c2_ledger_lifecycle "m" "c" "master" envAllOk []).2.2 [.append "x" "y"] (by decide)

/-- C3 (corrected) counterexample: the pipeline reaches image removal
(`ranRmi = true`), the removal command fails with stdout `[0xFF]` (not valid
text), and `test` returns a text-decoding SetupError instead of the run/test
classification — so removal failure is not merely logged regardless of the
contents of its stdout/stderr. -/
theorem c3_counterexample :
    (testFn envRmiFailBin).1 = .error (.Utf8Error [255])
      ∧ (testFn envRmiFailBin).2.ranRmi = true := by decide

/-- C3 (corrected, amended): if the image-removal command fails but its
captured stdout and stderr decode as text, the failure is only logged: `test`
still returns the run/test classification. -/
theorem c3_amended (p bid rs re ts te ds de : String) (bout runR testR rmiR : CmdResult)
    (hb : bout.success = true) (hbd : decodeUtf8 bout.stdout = some bid)
    (hdel : rmiR.success = false)
    (hds : decodeUtf8 rmiR.stdout = some ds) (hde : decodeUtf8 rmiR.stderr = some de)
    (hrs : decodeUtf8 runR.stdout = some rs) (hre : decodeUtf8 runR.stderr = some re)
    (hts : decodeUtf8 testR.stdout = some ts) (hte : decodeUtf8 testR.stderr = some te) :
    (testFn ⟨.ok (), .ok (), .ok p, .ok (), .ok bout, .ok (), .ok runR, .ok testR, .ok rmiR⟩).1
      = .ok (classifySpec runR.success testR.success ⟨rs, re⟩ ⟨ts, te⟩) := by
  cases hr : runR.success <;> cases ht : testR.success <;>
    simp [testFn, classifyStep, classifySpec, mkOutput, hb, hbd, hdel, hds, hde,
      hrs, hre, hts, hte, hr, ht]

/-- Witness for the amended C3 at a concrete failing-removal environment with
decodable output. -/
theorem c3_amended_witness :
    (testFn envRmiFailTxt).1 = .ok (classifySpec true true ⟨"r", ""⟩ ⟨"t", "e"⟩) :=
  c3_amended "rust" "id" "r" "" "t" "e" "x" "y"
    ⟨true, [105, 100], []⟩ ⟨true, [114], []⟩ ⟨true, [116], [101]⟩ ⟨false, [120], [121]⟩
    rfl (by decide) rfl (by decide) (by decide) (by decide) (by decide) (by decide) (by decide)

/-- C4 (corrected) counterexample: the build exits non-zero with stdout
`[0xFF]` (not valid text); `test` returns a text-decoding SetupError, not a
container-build SetupError (run/test still never execute and the workspace is
still removed). -/
theorem c4_counterexample :
    (testFn envBuildFailBin).1 = .error (.Utf8Error [255])
      ∧ (testFn envBuildFailBin).2.ranRun = false
      ∧ (testFn envBuildFailBin).2.ranTest = false
      ∧ (testFn envBuildFailBin).2.tmpRemoved = true := by decide

/-- C4 (corrected, amended): if the build exits non-zero and its captured
streams decode as text, `test` returns a container-build SetupError carrying
that Output; in that case the run and test commands are never invoked, image
removal is never invoked, and workspace removal is still attempted. -/
theorem c4_amended (p so se : String) (bout runR testR rmiR : CmdResult)
    (hb : bout.success = false)
    (hso : decodeUtf8 bout.stdout = some so) (hse : decodeUtf8 bout.stderr = some se) :
    (testFn ⟨.ok (), .ok (), .ok p, .ok (), .ok bout, .ok (), .ok runR, .ok testR, .ok rmiR⟩).1
        = .error (.ContainerBuildFailed ⟨so, se⟩)
      ∧ (testFn ⟨.ok (), .ok (), .ok p, .ok (), .ok bout, .ok (), .ok runR, .ok testR, .ok rmiR⟩).2
          = ⟨false, false, false, true⟩ := by
  constructor <;> simp [testFn, mkOutput, hb, hso, hse]

/-- Witness for the amended C4 at a concrete failing build with decodable
output. -/
theorem c4_amended_witness :
    (testFn envBuildFailTxt).1 = .error (.ContainerBuildFailed ⟨"n", "o"⟩)
      ∧ (testFn envBuildFailTxt).2 = ⟨false, false, false, true⟩ :=
  c4_amended "rust" "n" "o"
    ⟨false, [110], [111]⟩ ⟨true, [114], []⟩ ⟨true, [116], [101]⟩ ⟨true, [], []⟩
    rfl (by decide) (by decide)

/-- C5 (corrected) counterexample: with zero configured repositories, a
request whose derived branch (`feature-x`) the policy rejects is answered with
the unknown-repository message, not the branch-skip acknowledgement (the
ledger is still untouched). -/
theorem c5_counterexample :
    branchRejected (deriveBranch formFeature.reference) = true
      ∧ submissionHandler [] formFeature envAllOk []
          = ("Unknown Repository http://h/r.git", [])
      ∧ ("Unknown Repository http://h/r.git" : String)
          ≠ "Skipping none master|submission branch" := by decide

/-- C5 (corrected, amended): provided at least one repository is configured,
every request whose derived branch is rejected by the policy gets the
branch-skip acknowledgement and causes no ledger mutation. -/
theorem c5_amended (conf : List RepoSettings) (form : RequestData) (env : Env)
    (ledger : List TestLogEntry) (hconf : conf ≠ [])
    (hrej : branchRejected (deriveBranch form.reference) = true) :
    submissionHandler conf form env ledger
      = ("Skipping none master|submission branch", ledger) := by
  cases conf with
  | nil => exact absurd rfl hconf
  | cons rep rest => simp [submissionHandler, submissionLoop, hrej]

/-- Witness for the amended C5 at a concrete one-repository configuration. -/
theorem c5_amended_witness :
    submissionHandler [repoA] formFeature envAllOk []
      = ("Skipping none master|submission branch", []) :=
  c5_amended [repoA] formFeature envAllOk [] (by decide) (by decide)

/-- C6 (confirmed): for an accepted branch, the handler scans the configured
repositories in declaration order; the first whose match URL equals the
payload's `git_http_url` is dispatched with the clone URL obtained by
substituting every `{username}` with its deploy user and every `{password}`
with its deploy token; if none matches, the response names the submitted URL
and the ledger is unchanged. -/
theorem c6_matching (conf : List RepoSettings) (form : RequestData) (env : Env)
    (ledger : List TestLogEntry)
    (hacc : branchRejected (deriveBranch form.reference) = false) :
    (match conf.find? (fun rep => form.repository.git_http_url == rep.match_url) with
     | some rep =>
         submissionHandler conf form env ledger
           = ("Running Test!",
              testWrapper rep.match_url
                (rustReplace (rustReplace rep.clone_url "{username}" rep.deploy_user)
                  "{password}" rep.deploy_token)
                (deriveBranch form.reference) env ledger)
     | none =>
         submissionHandler conf form env ledger
           = ("Unknown Repository " ++ form.repository.git_http_url, ledger)) := by
  induction conf with
  | nil => simp [submissionHandler, submissionLoop]
  | cons rep rest ih =>
    by_cases hm : (form.repository.git_http_url == rep.match_url) = true
    · rw [@List.find?_cons_of_pos RepoSettings
          (fun r => form.repository.git_http_url == r.match_url) rep rest hm]
      simp [submissionHandler, submissionLoop, hacc, hm]
    · rw [@List.find?_cons_of_neg RepoSettings
          (fun r => form.repository.git_http_url == r.match_url) rep rest (by simpa using hm)]
      have hstep : submissionHandler (rep :: rest) form env ledger
          = submissionHandler rest form env ledger := by
        simp [submissionHandler, submissionLoop, hacc, hm]
      rw [hstep]
      exact ih

/-- Witness for C6: with two configured repositories the second one matches
and is dispatched with substituted credentials. -/
theorem c6_matching_witness :
    submissionHandler [repoB, repoA] formMaster envAllOk []
      = ("Running Test!",
         testWrapper "http://h/r.git" "https://bot:t0k3n@h/r.git" "master" envAllOk []) := by
  have hf : List.find?
      (fun rep => formMaster.repository.git_http_url == rep.match_url) [repoB, repoA]
      = some repoA := by decide
  have h := c6_matching [repoB, repoA] formMaster envAllOk [] (by decide)
  rw [hf] at h
  exact h.trans (by decide)

/-- C7 (confirmed): the ledger entry written by `test_wrapper` is exactly the
spec's recording of the pipeline result: Success(test) for Success, TestError
with only the run log for RunError, TestError with only the test log for
TestError, TestError with both logs for RunTestError, and the SetupError
verbatim for a pipeline error. -/
theorem c7_recording (m c b : String) (env : Env) (ledger : List TestLogEntry) :
    (testWrapper m c b env ledger).get? ledger.length
      = some ⟨m, b, recordSpec (testFn env).1⟩ := by
  unfold testWrapper
  cases h : (testFn env).1 with
  | ok r =>
    rw [setResultAt_get_self _ _ _ _ (get_concat ledger _)]
    cases r <;> rfl
  | error e =>
    rw [setResultAt_get_self _ _ _ _ (get_concat ledger _)]
    rfl

/-- C8 (corrected) counterexample: the build subprocess succeeds but its
captured stderr is `[0xFF]` (not valid text); `test` nevertheless returns a
successful classification — the non-text stderr is silently dropped, never
decoded, so non-text subprocess output does not always produce a decoding
SetupError. -/
theorem c8_counterexample :
    envBuildNoise.buildCmd = .ok ⟨true, [105, 100], [255]⟩
      ∧ decodeUtf8 [255] = none
      ∧ (testFn envBuildNoise).1 = .ok (.Success ⟨"t", "e"⟩) := by decide

/-- C8 (corrected, amended): every stream the pipeline decodes escalates to a
text-decoding SetupError carrying exactly those bytes when it is not valid
text — (1) the build's stdout and (2) stderr on build failure, (3) the
build's stdout (image id) on success, (4) the removal command's stdout and
(5) stderr on removal failure, and the run/test streams carried by the chosen
classification arm: (6) test stdout and (7) stderr when the run succeeded,
(8) run stdout and (9) stderr when the run failed, (10) test stdout and (11)
stderr after the run streams when both failed — while streams the pipeline
never decodes cannot influence the result at all: (12) the build's stderr on
success, (13) the removal streams on removal success, (14) the run streams
when the run succeeded, (15) the test streams when only the run failed. -/
theorem c8_amended :
    (∀ (p : String) (bout runR testR rmiR : CmdResult),
      bout.success = false → decodeUtf8 bout.stdout = none →
      (testFn (mkEnv p bout runR testR rmiR)).1 = .error (.Utf8Error bout.stdout))
    ∧ (∀ (p : String) (bout runR testR rmiR : CmdResult),
      bout.success = false → (decodeUtf8 bout.stdout).isSome = true →
      decodeUtf8 bout.stderr = none →
      (testFn (mkEnv p bout runR testR rmiR)).1 = .error (.Utf8Error bout.stderr))
    ∧ (∀ (p : String) (bout runR testR rmiR : CmdResult),
      bout.success = true → decodeUtf8 bout.stdout = none →
      (testFn (mkEnv p bout runR testR rmiR)).1 = .error (.Utf8Error bout.stdout))
    ∧ (∀ (p : String) (bout runR testR rmiR : CmdResult),
      bout.success = true → (decodeUtf8 bout.stdout).isSome = true →
      rmiR.success = false → decodeUtf8 rmiR.stdout = none →
      (testFn (mkEnv p bout runR testR rmiR)).1 = .error (.Utf8Error rmiR.stdout))
    ∧ (∀ (p : String) (bout runR testR rmiR : CmdResult),
      bout.success = true → (decodeUtf8 bout.stdout).isSome = true →
      rmiR.success = false → (decodeUtf8 rmiR.stdout).isSome = true →
      decodeUtf8 rmiR.stderr = none →
      (testFn (mkEnv p bout runR testR rmiR)).1 = .error (.Utf8Error rmiR.stderr))
    ∧ (∀ (p : String) (bout runR testR rmiR : CmdResult),
      bout.success = true → (decodeUtf8 bout.stdout).isSome = true →
      (rmiR.success = true
        ∨ ((decodeUtf8 rmiR.stdout).isSome = true ∧ (decodeUtf8 rmiR.stderr).isSome = true)) →
      runR.success = true → decodeUtf8 testR.stdout = none →
      (testFn (mkEnv p bout runR testR rmiR)).1 = .error (.Utf8Error testR.stdout))
    ∧ (∀ (p : String) (bout runR testR rmiR : CmdResult),
      bout.success = true → (decodeUtf8 bout.stdout).isSome = true →
      (rmiR.success = true
        ∨ ((decodeUtf8 rmiR.stdout).isSome = true ∧ (decodeUtf8 rmiR.stderr).isSome = true)) →
      runR.success = true → (decodeUtf8 testR.stdout).isSome = true →
      decodeUtf8 testR.stderr = none →
      (testFn (mkEnv p bout runR testR rmiR)).1 = .error (.Utf8Error testR.stderr))
    ∧ (∀ (p : String) (bout runR testR rmiR : CmdResult),
      bout.success = true → (decodeUtf8 bout.stdout).isSome = true →
      (rmiR.success = true
        ∨ ((decodeUtf8 rmiR.stdout).isSome = true ∧ (decodeUtf8 rmiR.stderr).isSome = true)) →
      runR.success = false → decodeUtf8 runR.stdout = none →
      (testFn (mkEnv p bout runR testR rmiR)).1 = .error (.Utf8Error runR.stdout))
    ∧ (∀ (p : String) (bout runR testR rmiR : CmdResult),
      bout.success = true → (decodeUtf8 bout.stdout).isSome = true →
      (rmiR.success = true
        ∨ ((decodeUtf8 rmiR.stdout).isSome = true ∧ (decodeUtf8 rmiR.stderr).isSome = true)) →
      runR.success = false → (decodeUtf8 runR.stdout).isSome = true →
      decodeUtf8 runR.stderr = none →
      (testFn (mkEnv p bout runR testR rmiR)).1 = .error (.Utf8Error runR.stderr))
    ∧ (∀ (p : String) (bout runR testR rmiR : CmdResult),
      bout.success = true → (decodeUtf8 bout.stdout).isSome = true →
      (rmiR.success = true
        ∨ ((decodeUtf8 rmiR.stdout).isSome = true ∧ (decodeUtf8 rmiR.stderr).isSome = true)) →
      runR.success = false → testR.success = false →
      (decodeUtf8 runR.stdout).isSome = true → (decodeUtf8 runR.stderr).isSome = true →
      decodeUtf8 testR.stdout = none →
      (testFn (mkEnv p bout runR testR rmiR)).1 = .error (.Utf8Error testR.stdout))
    ∧ (∀ (p : String) (bout runR testR rmiR : CmdResult),
      bout.success = true → (decodeUtf8 bout.stdout).isSome = true →
      (rmiR.success = true
        ∨ ((decodeUtf8 rmiR.stdout).isSome = true ∧ (decodeUtf8 rmiR.stderr).isSome = true)) →
      runR.success = false → testR.success = false →
      (decodeUtf8 runR.stdout).isSome = true → (decodeUtf8 runR.stderr).isSome = true →
      (decodeUtf8 testR.stdout).isSome = true → decodeUtf8 testR.stderr = none →
      (testFn (mkEnv p bout runR testR rmiR)).1 = .error (.Utf8Error testR.stderr))
    ∧ (∀ (p : String) (so e1 e2 : List Byte) (runR testR rmiR : CmdResult),
      testFn (mkEnv p ⟨true, so, e1⟩ runR testR rmiR)
        = testFn (mkEnv p ⟨true, so, e2⟩ runR testR rmiR))
    ∧ (∀ (p : String) (bout runR testR : CmdResult) (a1 b1 a2 b2 : List Byte),
      testFn (mkEnv p bout runR testR ⟨true, a1, b1⟩)
        = testFn (mkEnv p bout runR testR ⟨true, a2, b2⟩))
    ∧ (∀ (p : String) (bout testR rmiR : CmdResult) (a1 b1 a2 b2 : List Byte),
      testFn (mkEnv p bout ⟨true, a1, b1⟩ testR rmiR)
        = testFn (mkEnv p bout ⟨true, a2, b2⟩ testR rmiR))
    ∧ (∀ (p : String) (bout rmiR : CmdResult) (ra rb a1 b1 a2 b2 : List Byte),
      testFn (mkEnv p bout ⟨false, ra, rb⟩ ⟨true, a1, b1⟩ rmiR)
        = testFn (mkEnv p bout ⟨false, ra, rb⟩ ⟨true, a2, b2⟩ rmiR)) := by
  refine ⟨?_, ?_, ?_, ?_, ?_, ?_, ?_, ?_, ?_, ?_, ?_, ?_, ?_, ?_, ?_⟩
  · intro p bout runR testR rmiR hb hnd
    simp [mkEnv, testFn, mkOutput, hb, hnd]
  · intro p bout runR testR rmiR hb hs hnd
    obtain ⟨so, hso⟩ := Option.isSome_iff_exists.mp hs
    simp [mkEnv, testFn, mkOutput, hb, hso, hnd]
  · intro p bout runR testR rmiR hb hnd
    simp [mkEnv, testFn, hb, hnd]
  · intro p bout runR testR rmiR hb hs hrmi hnd
    obtain ⟨bid, hbid⟩ := Option.isSome_iff_exists.mp hs
    simp [mkEnv, testFn, mkOutput, hb, hbid, hrmi, hnd]
  · intro p bout runR testR rmiR hb hs hrmi hds hnd
    obtain ⟨bid, hbid⟩ := Option.isSome_iff_exists.mp hs
    obtain ⟨ds, hds2⟩ := Option.isSome_iff_exists.mp hds
    simp [mkEnv, testFn, mkOutput, hb, hbid, hrmi, hds2, hnd]
  · intro p bout runR testR rmiR hb hs hrmi hr hnd
    exact (testFn_reaches_classify p bout runR testR rmiR hb hs hrmi).trans
      (classifyStep_test_stdout runR testR _ hr hnd)
  · intro p bout runR testR rmiR hb hs hrmi hr hts hnd
    exact (testFn_reaches_classify p bout runR testR rmiR hb hs hrmi).trans
      (classifyStep_test_stderr runR testR _ hr hts hnd)
  · intro p bout runR testR rmiR hb hs hrmi hr hnd
    exact (testFn_reaches_classify p bout runR testR rmiR hb hs hrmi).trans
      (classifyStep_run_stdout runR testR _ hr hnd)
  · intro p bout runR testR rmiR hb hs hrmi hr hrsd hnd
    exact (testFn_reaches_classify p bout runR testR rmiR hb hs hrmi).trans
      (classifyStep_run_stderr runR testR _ hr hrsd hnd)
  · intro p bout runR testR rmiR hb hs hrmi hr ht h1 h2 hnd
    exact (testFn_reaches_classify p bout runR testR rmiR hb hs hrmi).trans
      (classifyStep_ff_test_stdout runR testR _ hr ht h1 h2 hnd)
  · intro p bout runR testR rmiR hb hs hrmi hr ht h1 h2 h3 hnd
    exact (testFn_reaches_classify p bout runR testR rmiR hb hs hrmi).trans
      (classifyStep_ff_test_stderr runR testR _ hr ht h1 h2 h3 hnd)
  · intro p so e1 e2 runR testR rmiR
    rfl
  · intro p bout runR testR a1 b1 a2 b2
    rfl
  · intro p bout testR rmiR a1 b1 a2 b2
    cases ht : testR.success <;> simp [mkEnv, testFn, classifyStep, mkOutput, ht]
  · intro p bout rmiR ra rb a1 b1 a2 b2
    rfl

/-- Witness for the amended C8: one concrete instance per conjunct — every
decoded-stream site escalating on the invalid byte `0xFF`, and every
never-decoded stream shown irrelevant by varying it. -/
theorem c8_amended_witness :
    (testFn (mkEnv "rust" ⟨false, [255], [97]⟩ ⟨true, [], []⟩ ⟨true, [], []⟩ ⟨true, [], []⟩)).1
        = .error (.Utf8Error [255])
    ∧ (testFn (mkEnv "rust" ⟨false, [97], [255]⟩ ⟨true, [], []⟩ ⟨true, [], []⟩ ⟨true, [], []⟩)).1
        = .error (.Utf8Error [255])
    ∧ (testFn (mkEnv "rust" ⟨true, [255], []⟩ ⟨true, [], []⟩ ⟨true, [], []⟩ ⟨true, [], []⟩)).1
        = .error (.Utf8Error [255])
    ∧ (testFn (mkEnv "rust" ⟨true, [105], []⟩ ⟨true, [], []⟩ ⟨true, [], []⟩ ⟨false, [255], []⟩)).1
        = .error (.Utf8Error [255])
    ∧ (testFn (mkEnv "rust" ⟨true, [105], []⟩ ⟨true, [], []⟩ ⟨true, [], []⟩ ⟨false, [97], [255]⟩)).1
        = .error (.Utf8Error [255])
    ∧ (testFn (mkEnv "rust" ⟨true, [105], []⟩ ⟨true, [114], []⟩ ⟨true, [255], []⟩ ⟨true, [], []⟩)).1
        = .error (.Utf8Error [255])
    ∧ (testFn (mkEnv "rust" ⟨true, [105], []⟩ ⟨true, [114], []⟩ ⟨true, [116], [255]⟩ ⟨true, [], []⟩)).1
        = .error (.Utf8Error [255])
    ∧ (testFn (mkEnv "rust" ⟨true, [105], []⟩ ⟨false, [255], []⟩ ⟨true, [116], []⟩ ⟨true, [], []⟩)).1
        = .error (.Utf8Error [255])
    ∧ (testFn (mkEnv "rust" ⟨true, [105], []⟩ ⟨false, [114], [255]⟩ ⟨true, [116], []⟩ ⟨true, [], []⟩)).1
        = .error (.Utf8Error [255])
    ∧ (testFn (mkEnv "rust" ⟨true, [105], []⟩ ⟨false, [114], [115]⟩ ⟨false, [255], []⟩ ⟨true, [], []⟩)).1
        = .error (.Utf8Error [255])
    ∧ (testFn (mkEnv "rust" ⟨true, [105], []⟩ ⟨false, [114], [115]⟩ ⟨false, [116], [255]⟩ ⟨true, [], []⟩)).1
        = .error (.Utf8Error [255])
    ∧ testFn (mkEnv "rust" ⟨true, [105], [0]⟩ ⟨true, [], []⟩ ⟨true, [], []⟩ ⟨true, [], []⟩)
        = testFn (mkEnv "rust" ⟨true, [105], [255]⟩ ⟨true, [], []⟩ ⟨true, [], []⟩ ⟨true, [], []⟩)
    ∧ testFn (mkEnv "rust" ⟨true, [105], []⟩ ⟨true, [], []⟩ ⟨true, [], []⟩ ⟨true, [0], [1]⟩)
        = testFn (mkEnv "rust" ⟨true, [105], []⟩ ⟨true, [], []⟩ ⟨true, [], []⟩ ⟨true, [255], [254]⟩)
    ∧ testFn (mkEnv "rust" ⟨true, [105], []⟩ ⟨true, [0], [1]⟩ ⟨true, [], []⟩ ⟨true, [], []⟩)
        = testFn (mkEnv "rust" ⟨true, [105], []⟩ ⟨true, [255], [254]⟩ ⟨true, [], []⟩ ⟨true, [], []⟩)
    ∧ testFn (mkEnv "rust" ⟨true, [105], []⟩ ⟨false, [114], []⟩ ⟨true, [0], [1]⟩ ⟨true, [], []⟩)
        = testFn (mkEnv "rust" ⟨true, [105], []⟩ ⟨false, [114], []⟩ ⟨true, [255], [254]⟩ ⟨true, [], []⟩) := by
  obtain ⟨h1, h2, h3, h4, h5, h6, h7, h8, h9, h10, h11, h12, h13, h14, h15⟩ := c8_amended
  exact ⟨h1 "rust" ⟨false, [255], [97]⟩ ⟨true, [], []⟩ ⟨true, [], []⟩ ⟨true, [], []⟩ rfl (by decide),
    h2 "rust" ⟨false, [97], [255]⟩ ⟨true, [], []⟩ ⟨true, [], []⟩ ⟨true, [], []⟩ rfl (by decide) (by decide),
    h3 "rust" ⟨true, [255], []⟩ ⟨true, [], []⟩ ⟨true, [], []⟩ ⟨true, [], []⟩ rfl (by decide),
    h4 "rust" ⟨true, [105], []⟩ ⟨true, [], []⟩ ⟨true, [], []⟩ ⟨false, [255], []⟩ rfl (by decide) rfl (by decide),
    h5 "rust" ⟨true, [105], []⟩ ⟨true, [], []⟩ ⟨true, [], []⟩ ⟨false, [97], [255]⟩ rfl (by decide) rfl (by decide) (by decide),
    h6 "rust" ⟨true, [105], []⟩ ⟨true, [114], []⟩ ⟨true, [255], []⟩ ⟨true, [], []⟩ rfl (by decide) (by decide) rfl (by decide),
    h7 "rust" ⟨true, [105], []⟩ ⟨true, [114], []⟩ ⟨true, [116], [255]⟩ ⟨true, [], []⟩ rfl (by decide) (by decide) rfl (by decide) (by decide),
    h8 "rust" ⟨true, [105], []⟩ ⟨false, [255], []⟩ ⟨true, [116], []⟩ ⟨true, [], []⟩ rfl (by decide) (by decide) rfl (by decide),
    h9 "rust" ⟨true, [105], []⟩ ⟨false, [114], [255]⟩ ⟨true, [116], []⟩ ⟨true, [], []⟩ rfl (by decide) (by decide) rfl (by decide) (by decide),
    h10 "rust" ⟨true, [105], []⟩ ⟨false, [114], [115]⟩ ⟨false, [255], []⟩ ⟨true, [], []⟩ rfl (by decide) (by decide) rfl rfl (by decide) (by decide) (by decide),
    h11 "rust" ⟨true, [105], []⟩ ⟨false, [114], [115]⟩ ⟨false, [116], [255]⟩ ⟨true, [], []⟩ rfl (by decide) (by decide) rfl rfl (by decide) (by decide) (by decide) (by decide),
    h12 "rust" [105] [0] [255] ⟨true, [], []⟩ ⟨true, [], []⟩ ⟨true, [], []⟩,
    h13 "rust" ⟨true, [105], []⟩ ⟨true, [], []⟩ ⟨true, [], []⟩ [0] [1] [255] [254],
    h14 "rust" ⟨true, [105], []⟩ ⟨true, [], []⟩ ⟨true, [], []⟩ [0] [1] [255] [254],
    h15 "rust" ⟨true, [105], []⟩ ⟨true, [], []⟩ [114] [] [0] [1] [255] [254]⟩

/-- C9 (corrected) counterexample: deriving the branch uses replace-all, so a
ref with a second, non-leading occurrence of `"refs/heads/"` loses that
occurrence too, unlike the claim's strip-only-a-leading-occurrence. -/
theorem c9_counterexample :
    deriveBranch "refs/heads/x/refs/heads/y" = "x/y"
      ∧ stripLeadingOnly "refs/heads/x/refs/heads/y" = "x/refs/heads/y"
      ∧ deriveBranch "refs/heads/x/refs/heads/y"
          ≠ stripLeadingOnly "refs/heads/x/refs/heads/y" := by decide

/-- C9 (corrected, amended): the derived branch removes every occurrence of
`"refs/heads/"` scanning left to right: a leading occurrence is removed and
the remainder is derived the same way, and a ref with no occurrence at all is
unchanged. -/
theorem c9_amended (s r : String)
    (hno : listHasOcc "refs/heads/".toList r.toList = false) :
    deriveBranch ("refs/heads/" ++ s) = deriveBranch s ∧ deriveBranch r = r := by
  refine ⟨?_, ?_⟩
  · show String.mk (replaceSeq "refs/heads/".toList [] ("refs/heads/" ++ s).toList)
        = String.mk (replaceSeq "refs/heads/".toList [] s.toList)
    rw [toList_append, show "refs/heads/".toList = 'r' :: "efs/heads/".toList from rfl]
    rw [replaceSeq_append_pat]
    rfl
  · show String.mk (replaceSeq "refs/heads/".toList [] r.toList) = r
    rw [replaceSeq_no_occ _ _ _ hno]
    cases r
    rfl

/-- Witness for the amended C9 at concrete refs. -/
theorem c9_amended_witness :
    (deriveBranch ("refs/heads/" ++ "master") = deriveBranch "master"
      ∧ deriveBranch "feature-x" = "feature-x") :=
  c9_amended "master" "feature-x" (by decide)

/-- C10 (confirmed): with zero configured repositories the loop body — and so
the branch gate — never runs: every request, whatever its ref, gets the
unknown-repository response naming the submitted URL, and the ledger is
untouched. -/
theorem c10_empty_config (form : RequestData) (env : Env) (ledger : List TestLogEntry) :
    submissionHandler [] form env ledger
      = ("Unknown Repository " ++ form.repository.git_http_url, ledger) := by
  simp [submissionHandler, submissionLoop]

end SubmissionSystem
